import Mathlib

/-!
Verification of the PRECISE-HBR risk-scoring engine.

This file gives a shallow embedding, in Lean 4, of the core scoring code of
the repository (services/unit_conversion.py, services/condition_checkers.py,
services/precise_hbr_calculator.py, services/tradeoff_calculator.py,
services/fhir_client.py, services/cdss_config_loader.py) and proves the
behavioural claims about it.

Modelling conventions:
* Python numbers are embedded as exact rationals (`ℚ`); the transcendental
  hazard-ratio conversion (math.exp / math.log) is embedded over `ℝ`.
* Python `round` (round-half-to-even, "banker's rounding") is `pyRound`.
* Python `str.lower()` is `pyLower` (ASCII case folding, as in the data
  handled by the engine); `a in b` on strings is `strContains`.
* FHIR resources are embedded as records with `Option` fields for keys that
  the code reads with `.get`; Python truthiness of a numeric value is
  `truthyQ` / option-plus-nonzero tests, exactly as the code tests `if x:`.
* The CKD-EPI eGFR formula (services/fhir_utils.py, calculate_egfr) uses
  non-rational powers; it is kept as an explicit function parameter
  `egfrCalc` of the scorer, universally quantified in every theorem.
* The process-wide configuration (cdss_config.json, read through
  services/cdss_config_loader.py) is embedded as a `Config` record holding
  the values the checkers extract with their `.get(..., default)` chains.
-/

namespace PreciseHBR

/-- Embedding of Python `str.lower()`: character-wise ASCII lowering (the
unit strings and keywords handled by the engine are ASCII). -/
def pyLower (s : String) : String := ⟨s.data.map Char.toLower⟩

/-- Embedding of Python `a in b` for strings: `pat` occurs as a contiguous
substring of `s`. -/
def strContains (s pat : String) : Bool := decide (pat.data <:+: s.data)

/-- Embedding of Python `s.strip() == ''`: every character is whitespace. -/
def isBlank (s : String) : Bool := s.data.all Char.isWhitespace

/-- Embedding of Python 3 `round(x)`: round half to even. -/
def pyRound (q : ℚ) : ℤ :=
  if q - ⌊q⌋ < 1/2 then ⌊q⌋
  else if 1/2 < q - ⌊q⌋ then ⌊q⌋ + 1
  else if 2 ∣ ⌊q⌋ then ⌊q⌋ else ⌊q⌋ + 1

/-- Embedding of Python 3 `round(x)` over the reals (used by the
hazard-ratio engine, whose formulas are transcendental). -/
noncomputable def pyRoundR (x : ℝ) : ℤ :=
  if x - ⌊x⌋ < 1/2 then ⌊x⌋
  else if 1/2 < x - ⌊x⌋ then ⌊x⌋ + 1
  else if 2 ∣ ⌊x⌋ then ⌊x⌋ else ⌊x⌋ + 1

/-- Embedding of Python 3 `round(x, 2)` over the reals. -/
noncomputable def pyRound2R (x : ℝ) : ℝ := (pyRoundR (x * 100) : ℝ) / 100

/-! ## services/unit_conversion.py -/

/-- FHIR `valueQuantity`: a numeric value and a unit string, each possibly
absent.  A non-numeric JSON value (rejected by the code's isinstance check)
is modelled as an absent value. -/
structure ValueQuantity where
  value : Option ℚ
  unit : Option String
deriving Repr, DecidableEq

/-- FHIR Observation resource, restricted to the fields the scorer reads. -/
structure Observation where
  valueQuantity : Option ValueQuantity
  effectiveDateTime : Option String
deriving Repr, DecidableEq

/-- One entry of `TARGET_UNITS`: canonical unit name and the table of
multiplicative conversion factors keyed by source-unit string. -/
structure UnitSystem where
  unit : String
  factors : List (String × ℚ)
deriving Repr, DecidableEq

/-- `TARGET_UNITS['HEMOGLOBIN']`. -/
def HEMOGLOBIN_UNITS : UnitSystem :=
  { unit := "g/dl"
    factors := [("g/l", 0.1), ("mmol/l", 1.61135), ("mg/dl", 0.001)] }

/-- `TARGET_UNITS['CREATININE']` (the µmol/l spelling with the micro sign is
a distinct key in the source; both map to the same factor). -/
def CREATININE_UNITS : UnitSystem :=
  { unit := "mg/dl"
    factors := [("umol/l", 0.0113), ("µmol/l", 0.0113)] }

/-- `TARGET_UNITS['WBC']`. -/
def WBC_UNITS : UnitSystem :=
  { unit := "10*9/l"
    factors := [("10*3/ul", 1), ("k/ul", 1), ("/ul", 0.001), ("/mm3", 0.001),
                ("10^9/l", 1), ("giga/l", 1)] }

/-- `TARGET_UNITS['EGFR']`. -/
def EGFR_UNITS : UnitSystem :=
  { unit := "ml/min/1.73m2"
    factors := [("ml/min/1.73m2", 1), ("ml/min/\x7b1.73_m2\x7d", 1),
                ("ml/min/1.73m^2", 1), ("ml/min/1.73 m2", 1),
                ("ml/min/1.73 m^2", 1), ("ml/min per 1.73m2", 1),
                ("ml/min/bsa", 1), ("ml/min", 1)] }

/-- `TARGET_UNITS['PLATELETS']`. -/
def PLATELETS_UNITS : UnitSystem :=
  { unit := "10*9/l"
    factors := [("10*3/ul", 1), ("k/ul", 1), ("/ul", 0.001),
                ("10^9/l", 1), ("giga/l", 1)] }

/-- Embedding of `get_value_from_observation` (unit_conversion.py, lines
63-115): extract the numeric value of an observation, converting its unit
to the canonical unit of `us`, or return `none` when unusable. -/
def get_value_from_observation (obs : Observation) (us : UnitSystem) :
    Option ℚ :=
  match obs.valueQuantity with
  | none => none
  | some vq =>
    match vq.value with
    | none => none
    | some v =>
      if pyLower (vq.unit.getD "") = "" ∨ isBlank (pyLower (vq.unit.getD "")) then
        some v
      else if pyLower (vq.unit.getD "") = us.unit then some v
      else if pyLower (pyLower (vq.unit.getD "")) = pyLower us.unit then some v
      else
        match us.factors.lookup (pyLower (vq.unit.getD "")) with
        | some factor => some (v * factor)
        | none => none

/-- Python truthiness of an optional rational: `if x:` is true exactly when
the value is present and nonzero. -/
def truthyQ : Option ℚ → Bool
  | none => false
  | some v => v != 0

/-- Python truthiness of an optional integer (the derived age). -/
def truthyZ : Option ℤ → Bool
  | none => false
  | some v => v != 0

/-- Python truthiness of an optional string (the gender field). -/
def truthyS : Option String → Bool
  | none => false
  | some s => s != ""

/-! ## FHIR condition / medication records and the CDSS configuration -/

/-- One entry of a FHIR `coding` array, with the three keys the checkers
read; each may be absent. -/
structure Coding where
  system : Option String
  code : Option String
  display : Option String
deriving Repr, DecidableEq

/-- FHIR `clinicalStatus`: either a codeable concept (a list of codings;
a missing key is the empty list, matching the code's `.get(..., {})`), or a
bare value whose `str(...).lower()` the code compares against "active". -/
inductive ClinicalStatus where
  | codeable (codings : List Coding)
  | bare (s : String)
deriving Repr, DecidableEq

/-- FHIR Condition resource, restricted to the fields the checkers read:
`code.coding`, `code.text` and `clinicalStatus`. -/
structure Condition where
  codings : List Coding
  text : Option String
  clinicalStatus : ClinicalStatus := .codeable []
deriving Repr, DecidableEq

/-- FHIR MedicationRequest, reduced to the only view the checkers take of
it: the Python string rendering `str(med.get('medicationCodeableConcept',
\x7b\x7d))` that they lowercase and substring-search. -/
structure Med where
  medText : String
deriving Repr, DecidableEq

/-- The SNOMED system URL the checkers compare against. -/
def snomedSys : String := "http://snomed.info/sct"

/-- The configuration values the checkers extract from the process-wide
`cdss_config.json` dictionary through their `.get(..., default)` chains
(services/cdss_config_loader.py plus the call sites in
services/condition_checkers.py). -/
structure Config where
  priorBleedingCodes : List String
  diathesisCodes : List String
  cirrhosisParentCode : String
  cirrhosisKeywords : List String
  phtCriteria : List String
  phtSnomedCodes : List String
  malignancyParentCode : String
  malignancyExcludeCodes : List String
  oacGenericNames : List String
  oacBrandNames : List String
  nsaidKeywords : List String
  corticosteroidKeywords : List String
  plateletThreshold : ℚ
deriving Repr, DecidableEq

/-- The configuration the checkers see after `load_cdss_config` fails
(cdss_config_loader.py lines 26-33): the loader catches FileNotFoundError /
JSONDecodeError, caches `_CDSS_CONFIG = \x7b\x7d` and returns it, so every
`.get(..., default)` chain resolves to its hard-coded default. -/
def emptyConfig : Config :=
  { priorBleedingCodes := []
    diathesisCodes := ["64779008"]
    cirrhosisParentCode := "19943007"
    cirrhosisKeywords := ["cirrhosis"]
    phtCriteria := ["ascites", "portal hypertension", "esophageal varices",
                    "hepatic encephalopathy"]
    phtSnomedCodes := []
    malignancyParentCode := "363346000"
    malignancyExcludeCodes := ["254637007", "254632001"]
    oacGenericNames := []
    oacBrandNames := []
    nsaidKeywords := []
    corticosteroidKeywords := []
    plateletThreshold := 100 }

/-- Embedding of `get_condition_text` (fhir_utils.py lines 140-161): join
the non-empty `code.text` and the non-empty coding displays with spaces. -/
def get_condition_text (c : Condition) : String :=
  let parts :=
    (match c.text with
     | some t => if t ≠ "" then [t] else []
     | none => []) ++
    c.codings.filterMap (fun cd =>
      match cd.display with
      | some d => if d ≠ "" then some d else none
      | none => none)
  String.intercalate " " parts

/-- The hard-coded bleeding keywords of `check_prior_bleeding_updated`. -/
def bleeding_keywords : List String :=
  ["hemorrhage", "bleeding", "hemarthrosis", "hematuria", "hemothorax",
   "hemopericardium", "hemoperitoneum", "retroperitoneal hematoma"]

/-- Embedding of `check_prior_bleeding_updated` (condition_checkers.py
lines 73-107): collect, over all conditions, the displays of codings whose
SNOMED code is configured as prior bleeding, plus the condition text when a
hard-coded keyword occurs in it; the flag is nonemptiness of the list. -/
def check_prior_bleeding_updated (cfg : Config) (conditions : List Condition) :
    Bool × List String :=
  let found := conditions.foldl (fun acc c =>
    let acc := acc ++ c.codings.filterMap (fun cd =>
      if cd.system == some snomedSys &&
         (match cd.code with
          | some k => cfg.priorBleedingCodes.contains k
          | none => false) then
        some (cd.display.getD "Prior bleeding")
      else none)
    let ctext := pyLower (get_condition_text c)
    if bleeding_keywords.any (fun kw => strContains ctext kw) then
      acc ++ [ctext]
    else acc) []
  (found.length > 0, found)

/-- Embedding of `check_oral_anticoagulation` (condition_checkers.py lines
10-38): true when any medication's lowered concept text contains a
configured generic or brand anticoagulant name. -/
def check_oral_anticoagulation (cfg : Config) (medications : List Med) :
    Bool :=
  let anticoagulant_codes := cfg.oacGenericNames ++ cfg.oacBrandNames
  medications.any (fun med =>
    anticoagulant_codes.any (fun a => strContains (pyLower med.medText) a))

/-- The hard-coded keywords of `check_bleeding_diathesis_updated`. -/
def diathesis_keywords : List String :=
  ["bleeding disorder", "bleeding diathesis", "hemorrhagic diathesis",
   "hemophilia", "von willebrand", "coagulation disorder"]

/-- Embedding of `check_bleeding_diathesis_updated` (condition_checkers.py
lines 40-71): per condition, first a configured SNOMED code, then the
hard-coded keywords over the lowered text; first hit returns. -/
def check_bleeding_diathesis_updated (cfg : Config) :
    List Condition → Bool × Option String
  | [] => (false, none)
  | c :: rest =>
    match c.codings.find? (fun cd =>
        cd.system == some snomedSys &&
        (match cd.code with
         | some k => cfg.diathesisCodes.contains k
         | none => false)) with
    | some cd => (true, some (cd.display.getD "Bleeding diathesis"))
    | none =>
      let ctext := pyLower (get_condition_text c)
      if diathesis_keywords.any (fun kw => strContains ctext kw) then
        (true, some ctext)
      else check_bleeding_diathesis_updated cfg rest

/-- The per-coding update of the liver checker's inner loop
(condition_checkers.py lines 142-154): set the cirrhosis flag on the
configured cirrhosis SNOMED code, set the portal-hypertension flag on a
configured portal-hypertension SNOMED code, recording the displays. -/
def liverCodingStep (cfg : Config) (st2 : Bool × Bool × List String)
    (cd : Coding) : Bool × Bool × List String :=
  let hit1 := cd.system.getD "" == snomedSys &&
    cd.code.getD "" == cfg.cirrhosisParentCode
  let hit2 := cd.system.getD "" == snomedSys &&
    cfg.phtSnomedCodes.contains (cd.code.getD "")
  ((st2.1 || hit1), (st2.2.1 || hit2),
   st2.2.2 ++
     (if hit1 then [cd.display.getD "Liver cirrhosis"] else []) ++
     (if hit2 then [cd.display.getD "Portal hypertension manifestation"]
      else []))

/-- The per-condition update of the liver checker (condition_checkers.py
lines 138-167): run the coding loop, then the cirrhosis keywords, then the
portal-hypertension text criteria. -/
def liverCondStep (cfg : Config) (st : Bool × Bool × List String)
    (c : Condition) : Bool × Bool × List String :=
  let st2 := c.codings.foldl (liverCodingStep cfg) st
  let ctext := pyLower (get_condition_text c)
  let kwHit := cfg.cirrhosisKeywords.any (fun kw => strContains ctext kw)
  let crFound := cfg.phtCriteria.find? (fun cr => strContains ctext cr)
  (st2.1 || kwHit,
   st2.2.1 || crFound.isSome,
   (st2.2.2 ++
     (if kwHit then ["Found cirrhosis: " ++ ctext.take 50 ++ "..."] else [])) ++
   (match crFound with
    | some cr => ["Found portal hypertension sign: " ++ cr]
    | none => []))

/-- Embedding of `check_liver_cirrhosis_portal_hypertension_updated`
(condition_checkers.py lines 109-171): one pass over the conditions keeps a
cirrhosis flag, a portal-hypertension flag and the found-evidence strings;
the result is the conjunction of the two flags. -/
def check_liver_cirrhosis_portal_hypertension_updated (cfg : Config)
    (conditions : List Condition) : Bool × List String :=
  let st := conditions.foldl (liverCondStep cfg) (false, false, [])
  (st.1 && st.2.1, st.2.2)

/-- Extraction of the clinical status code (condition_checkers.py lines
191-200): for a codeable concept, the `code` of the first coding in the
condition-clinical system (possibly absent); for a bare value, its lowered
string rendering. -/
def statusCode : ClinicalStatus → Option String
  | .codeable codings =>
    (codings.find? (fun cd =>
      cd.system ==
        some "http://terminology.hl7.org/CodeSystem/condition-clinical")).bind
      (fun cd => cd.code)
  | .bare s => some (pyLower s)

/-- The hard-coded cancer keywords of `check_active_cancer_updated`. -/
def cancer_keywords : List String :=
  ["cancer", "malignancy", "neoplasm", "carcinoma", "sarcoma", "lymphoma",
   "leukemia"]

/-- The hard-coded skin-cancer exclusion keywords of
`check_active_cancer_updated`. -/
def cancer_exclusion_keywords : List String :=
  ["basal cell", "squamous cell", "skin cancer"]

/-- Embedding of `check_active_cancer_updated` (condition_checkers.py lines
173-234): only conditions whose status code is "active" qualify; then a
SNOMED coding equal to the configured malignancy parent code (unless the
code is excluded), else — when no exclusion keyword occurs in the text — a
cancer keyword. -/
def check_active_cancer_updated (cfg : Config) :
    List Condition → Bool × Option String
  | [] => (false, none)
  | c :: rest =>
    if statusCode c.clinicalStatus != some "active" then
      check_active_cancer_updated cfg rest
    else
      match c.codings.find? (fun cd =>
          cd.system == some snomedSys &&
          !(match cd.code with
            | some k => cfg.malignancyExcludeCodes.contains k
            | none => false) &&
          cd.code == some cfg.malignancyParentCode) with
      | some cd =>
        (true, some (cd.display.getD "Active malignant neoplastic disease"))
      | none =>
        let ctext := pyLower (get_condition_text c)
        if cancer_exclusion_keywords.any (fun ex => strContains ctext ex) then
          check_active_cancer_updated cfg rest
        else if cancer_keywords.any (fun kw => strContains ctext kw) then
          (true, some ctext)
        else check_active_cancer_updated cfg rest

/-- The engine input assembled by the data-retrieval layer
(fhir_data_service.py): per-parameter observation lists, the conditions and
the medication requests. -/
structure RawData where
  hemoglobin : List Observation := []
  egfr : List Observation := []
  creatinine : List Observation := []
  wbc : List Observation := []
  platelets : List Observation := []
  conditions : List Condition := []
  med_requests : List Med := []
deriving Repr, DecidableEq

/-- Demographics as consumed by the scorer: derived age and gender. -/
structure Demographics where
  age : Option ℤ := none
  gender : Option String := none
deriving Repr, DecidableEq

/-- The detailed ARC-HBR factor breakdown returned by
`check_arc_hbr_factors_detailed`. -/
structure ArcHbrDetails where
  has_any_factor : Bool
  thrombocytopenia : Bool
  bleeding_diathesis : Bool
  active_malignancy : Bool
  liver_cirrhosis : Bool
  nsaids_corticosteroids : Bool
deriving Repr, DecidableEq

/-- The thrombocytopenia test of `check_arc_hbr_factors_detailed`
(condition_checkers.py lines 317-323): a truthy (present and nonzero)
normalized platelet value below the configured threshold. -/
def thrombocytopeniaCheck (cfg : Config) : List Observation → Bool
  | [] => false
  | plt_obs :: _ =>
    match get_value_from_observation plt_obs PLATELETS_UNITS with
    | some v => v != 0 && decide (v < cfg.plateletThreshold)
    | none => false

/-- Embedding of `check_arc_hbr_factors_detailed` (condition_checkers.py
lines 298-368). -/
def check_arc_hbr_factors_detailed (cfg : Config) (raw : RawData)
    (medications : List Med) : ArcHbrDetails :=
  let conditions := raw.conditions
  let has_thrombocytopenia := thrombocytopeniaCheck cfg raw.platelets
  let has_bleeding_diathesis :=
    (check_bleeding_diathesis_updated cfg conditions).1
  let has_active_cancer := (check_active_cancer_updated cfg conditions).1
  let has_liver_condition :=
    (check_liver_cirrhosis_portal_hypertension_updated cfg conditions).1
  let drug_codes := cfg.nsaidKeywords ++ cfg.corticosteroidKeywords
  let has_nsaids := medications.any (fun med =>
    drug_codes.any (fun k => strContains (pyLower med.medText) k))
  { has_any_factor := has_thrombocytopenia || has_bleeding_diathesis ||
      has_active_cancer || has_liver_condition || has_nsaids
    thrombocytopenia := has_thrombocytopenia
    bleeding_diathesis := has_bleeding_diathesis
    active_malignancy := has_active_cancer
    liver_cirrhosis := has_liver_condition
    nsaids_corticosteroids := has_nsaids }

/-! ## services/precise_hbr_calculator.py -/

/-- One entry of the score-component list. The display strings built from
the numeric values (the "value" and "description" fields) are presentation
only and are not modelled; `raw_value = none` is the "Not available" /
"Unknown" marker (the code sets `"raw_value": None` exactly in those
branches), and `is_present` carries the categorical yes/no flags. -/
structure Component where
  parameter : String
  score : ℤ
  raw_value : Option ℚ := none
  is_present : Option Bool := none
deriving Repr, DecidableEq

/-- The component recorded when age is missing or falsy (lines 93-101). -/
def ageUnknownComponent : Component :=
  { parameter := "PRECISE-HBR - Age", score := 0 }

/-- Age block of `calculate_precise_hbr_score` (lines 69-101): clamp into
[30, 80], then `(effective − 30) × 0.25` when the effective age exceeds 30;
the component's displayed score is the rounded contribution, the running
total receives the unrounded one (the second member of the pair). -/
def ageSection : Option ℤ → Component × ℚ
  | some a =>
    if a ≠ 0 then
      let effective_age := max 30 (min 80 a)
      if 30 < effective_age then
        let age_score_raw : ℚ := ((effective_age : ℚ) - 30) * 0.25
        ({ parameter := "PRECISE-HBR - Age", score := pyRound age_score_raw,
           raw_value := some (a : ℚ) }, age_score_raw)
      else
        ({ parameter := "PRECISE-HBR - Age", score := 0,
           raw_value := some (a : ℚ) }, 0)
    else (ageUnknownComponent, 0)
  | none => (ageUnknownComponent, 0)

/-- The component recorded when hemoglobin is missing or unusable. -/
def hbNotAvailableComponent : Component :=
  { parameter := "PRECISE-HBR - Hemoglobin", score := 0 }

/-- Hemoglobin block of `calculate_precise_hbr_score` (lines 103-152):
clamp into [5, 15], then `(15 − effective) × 2.5` when the effective value
is below 15. -/
def hbSection : List Observation → Component × ℚ
  | [] => (hbNotAvailableComponent, 0)
  | hemoglobin_obs :: _ =>
    match get_value_from_observation hemoglobin_obs HEMOGLOBIN_UNITS with
    | some hb_val =>
      if hb_val ≠ 0 then
        let effective_hb := max 5 (min 15 hb_val)
        if effective_hb < 15 then
          let hb_score_raw : ℚ := (15 - effective_hb) * 2.5
          ({ parameter := "PRECISE-HBR - Hemoglobin",
             score := pyRound hb_score_raw, raw_value := some hb_val },
           hb_score_raw)
        else
          ({ parameter := "PRECISE-HBR - Hemoglobin", score := 0,
             raw_value := some hb_val }, 0)
      else (hbNotAvailableComponent, 0)
    | none => (hbNotAvailableComponent, 0)

/-- The eGFR value resolution of `calculate_precise_hbr_score` (lines
154-177): a direct eGFR observation when present, otherwise — when a
creatinine observation, a truthy age and a truthy gender are available —
the CKD-EPI value computed from the truthy converted creatinine.
`egfrCalc` abstracts `calculate_egfr` (fhir_utils.py lines 73-96), whose
floating-point power formula is outside the rational embedding; its rounded
result is used only when truthy, matching `if calculated_egfr:`. -/
def egfrValue (egfrCalc : ℚ → ℤ → String → Option ℤ) (raw : RawData)
    (demo : Demographics) : Option ℚ :=
  match raw.egfr with
  | egfr_obs :: _ => get_value_from_observation egfr_obs EGFR_UNITS
  | [] =>
    match raw.creatinine, demo.age, demo.gender with
    | creatinine_obs :: _, some a, some g =>
      if a ≠ 0 ∧ g ≠ "" then
        match get_value_from_observation creatinine_obs CREATININE_UNITS with
        | some creatinine_val =>
          if creatinine_val ≠ 0 then
            match egfrCalc creatinine_val a g with
            | some calculated => if calculated ≠ 0 then some (calculated : ℚ)
                                 else none
            | none => none
          else none
        | none => none
      else none
    | _, _, _ => none

/-- The component recorded when no eGFR is resolvable. -/
def egfrNotAvailableComponent : Component :=
  { parameter := "PRECISE-HBR - eGFR", score := 0 }

/-- eGFR block of `calculate_precise_hbr_score` (lines 179-209): clamp into
[5, 100], then `(100 − effective) × 0.05` when the effective value is below
100. -/
def egfrSection : Option ℚ → Component × ℚ
  | some egfr_val =>
    if egfr_val ≠ 0 then
      let effective_egfr := max 5 (min 100 egfr_val)
      if effective_egfr < 100 then
        let egfr_score_raw : ℚ := (100 - effective_egfr) * 0.05
        ({ parameter := "PRECISE-HBR - eGFR",
           score := pyRound egfr_score_raw, raw_value := some egfr_val },
         egfr_score_raw)
      else
        ({ parameter := "PRECISE-HBR - eGFR", score := 0,
           raw_value := some egfr_val }, 0)
    else (egfrNotAvailableComponent, 0)
  | none => (egfrNotAvailableComponent, 0)

/-- The component recorded when the WBC count is missing or unusable. -/
def wbcNotAvailableComponent : Component :=
  { parameter := "PRECISE-HBR - White Blood Cell Count", score := 0 }

/-- WBC block of `calculate_precise_hbr_score` (lines 211-260): clamp only
the upper end at 15, then `(effective − 3.0) × 0.8` when the effective
value exceeds 3.0. -/
def wbcSection : List Observation → Component × ℚ
  | [] => (wbcNotAvailableComponent, 0)
  | wbc_obs :: _ =>
    match get_value_from_observation wbc_obs WBC_UNITS with
    | some wbc_val =>
      if wbc_val ≠ 0 then
        let effective_wbc := min 15 wbc_val
        if 3 < effective_wbc then
          let wbc_score_raw : ℚ := (effective_wbc - 3) * 0.8
          ({ parameter := "PRECISE-HBR - White Blood Cell Count",
             score := pyRound wbc_score_raw, raw_value := some wbc_val },
           wbc_score_raw)
        else
          ({ parameter := "PRECISE-HBR - White Blood Cell Count", score := 0,
             raw_value := some wbc_val }, 0)
      else (wbcNotAvailableComponent, 0)
    | none => (wbcNotAvailableComponent, 0)

/-- Prior-bleeding block (lines 262-278): +7 when detected. -/
def bleedingSection (cfg : Config) (conditions : List Condition) :
    Component × ℚ :=
  let has_bleeding := (check_prior_bleeding_updated cfg conditions).1
  let bleeding_score : ℤ := if has_bleeding then 7 else 0
  ({ parameter := "PRECISE-HBR - Prior Bleeding", score := bleeding_score,
     is_present := some has_bleeding }, (bleeding_score : ℚ))

/-- Oral-anticoagulation block (lines 280-296): +5 when detected. -/
def anticoagSection (cfg : Config) (medications : List Med) :
    Component × ℚ :=
  let has_anticoagulation := check_oral_anticoagulation cfg medications
  let anticoag_score : ℤ := if has_anticoagulation then 5 else 0
  ({ parameter := "PRECISE-HBR - Oral Anticoagulation",
     score := anticoag_score, is_present := some has_anticoagulation },
   (anticoag_score : ℚ))

/-- The fixed base-score component inserted at the head (lines 377-384). -/
def baseComponent : Component :=
  { parameter := "PRECISE-HBR - Base Score", score := 2 }

/-- The five zero-scored ARC-HBR element components plus the summary
component (lines 308-375). -/
def arcComponents (arc : ArcHbrDetails) (arc_hbr_score : ℤ) :
    List Component :=
  [{ parameter := "PRECISE-HBR - Platelet Count", score := 0,
     is_present := some arc.thrombocytopenia },
   { parameter := "PRECISE-HBR - Chronic Bleeding Diathesis", score := 0,
     is_present := some arc.bleeding_diathesis },
   { parameter := "PRECISE-HBR - Liver Cirrhosis", score := 0,
     is_present := some arc.liver_cirrhosis },
   { parameter := "PRECISE-HBR - Active Malignancy", score := 0,
     is_present := some arc.active_malignancy },
   { parameter := "PRECISE-HBR - NSAIDs/Corticosteroids", score := 0,
     is_present := some arc.nsaids_corticosteroids },
   { parameter := "PRECISE-HBR - ARC-HBR Summary", score := arc_hbr_score,
     is_present := some arc.has_any_factor }]

/-- Embedding of `calculate_precise_hbr_score` (precise_hbr_calculator.py
lines 19-401).  The running total starts at the base score 2 and
accumulates the UNROUNDED contribution of each block, in the order of the
source; the final score is `round(total_score)`.  The components carry the
individually rounded scores for display. -/
def calculate_precise_hbr_score (egfrCalc : ℚ → ℤ → String → Option ℤ)
    (cfg : Config) (raw : RawData) (demo : Demographics) :
    List Component × ℤ :=
  let base_score : ℚ := 2
  let ageS := ageSection demo.age
  let hbS := hbSection raw.hemoglobin
  let egfrS := egfrSection (egfrValue egfrCalc raw demo)
  let wbcS := wbcSection raw.wbc
  let bleedS := bleedingSection cfg raw.conditions
  let medications := raw.med_requests
  let oacS := anticoagSection cfg medications
  let arc := check_arc_hbr_factors_detailed cfg raw medications
  let arc_hbr_score : ℤ := if arc.has_any_factor then 3 else 0
  let total_score : ℚ :=
    base_score + ageS.2 + hbS.2 + egfrS.2 + wbcS.2 + bleedS.2 + oacS.2 +
      (arc_hbr_score : ℚ)
  let components :=
    baseComponent :: ageS.1 :: hbS.1 :: egfrS.1 :: wbcS.1 :: bleedS.1 ::
      oacS.1 :: arcComponents arc arc_hbr_score
  (components, pyRound total_score)

/-- Embedding of `calculate_bleeding_risk_percentage`
(precise_hbr_calculator.py lines 403-438): the 5-segment piecewise-linear
calibration curve, each segment capped. -/
def calculate_bleeding_risk_percentage (precise_hbr_score : ℤ) : ℚ :=
  if precise_hbr_score ≤ 22 then
    min 3.5 (0.5 + (precise_hbr_score : ℚ) / 22 * 3)
  else if precise_hbr_score ≤ 26 then
    min 5.5 (3.5 + ((precise_hbr_score : ℚ) - 22) / 4 * 2)
  else if precise_hbr_score ≤ 30 then
    min 8 (5.5 + ((precise_hbr_score : ℚ) - 26) / 4 * 2.5)
  else if precise_hbr_score ≤ 35 then
    min 12 (8 + ((precise_hbr_score : ℚ) - 30) / 5 * 4)
  else
    min 15 (12 + ((precise_hbr_score : ℚ) - 35) / 10 * 3)

/-- The risk-category record of `get_risk_category_info`; the percentage is
kept as the unformatted rational. -/
structure RiskCategoryInfo where
  category : String
  color : String
  bleeding_risk_percent : ℚ
  score_range : String
deriving Repr, DecidableEq

/-- Embedding of `get_risk_category_info` (precise_hbr_calculator.py lines
440-472). -/
def get_risk_category_info (precise_hbr_score : ℤ) : RiskCategoryInfo :=
  let bleeding_risk_percent :=
    calculate_bleeding_risk_percentage precise_hbr_score
  if precise_hbr_score ≤ 22 then
    { category := "Not high bleeding risk", color := "success",
      bleeding_risk_percent := bleeding_risk_percent,
      score_range := "(score ≤22)" }
  else if precise_hbr_score ≤ 26 then
    { category := "HBR", color := "warning",
      bleeding_risk_percent := bleeding_risk_percent,
      score_range := "(score 23-26)" }
  else
    { category := "Very HBR", color := "danger",
      bleeding_risk_percent := bleeding_risk_percent,
      score_range := "(score ≥27)" }

/-! ## services/tradeoff_calculator.py -/

/-- One predictor of the ARC-HBR trade-off model file: factor key, hazard
ratio (field `hazardRatio` in the JSON) and description. -/
structure Predictor where
  factor : String
  hazard : ℚ
  description : String
deriving Repr, DecidableEq

/-- The `tradeoffModel` object: the two per-event-type predictor lists. -/
structure PredictorModel where
  bleedingPredictors : List Predictor
  thromboticPredictors : List Predictor
deriving Repr, DecidableEq

/-- The result of `calculate_tradeoff_scores_interactive`; the factor
detail strings are modelled by the predictor descriptions (the code
additionally formats the hazard ratio into them, display only). -/
structure TradeoffResult where
  bleeding_score : ℝ
  thrombotic_score : ℝ
  bleeding_factors : List String
  thrombotic_factors : List String

/-- Embedding of `convert_hr_to_probability` (tradeoff_calculator.py lines
313-360): a Cox baseline-hazard transform, result rounded to 2 decimals
and capped at 100. -/
noncomputable def convert_hr_to_probability (total_hr_score : ℚ)
    (baseline_event_rate : ℚ) : ℝ :=
  if 1 ≤ (baseline_event_rate : ℝ) / 100 then 100
  else
    pyRound2R
      (min ((1 - Real.exp
        (-(-Real.log (1 - (baseline_event_rate : ℝ) / 100) *
           (total_hr_score : ℝ)))) * 100) 100)

/-- The per-event-type accumulation loop of
`calculate_tradeoff_scores_interactive`: start from hazard ratio 1.0 and,
for every predictor whose factor key is active, multiply the hazard ratio
in and record the description. -/
def tradeoffAgg (predictors : List Predictor) (active_factors : String → Bool) :
    ℚ × List String :=
  predictors.foldl
    (fun (st : ℚ × List String) p =>
      if active_factors p.factor then (st.1 * p.hazard, st.2 ++ [p.description])
      else st) (1, [])

/-- Embedding of `calculate_tradeoff_scores_interactive`
(tradeoff_calculator.py lines 362-416): per event type, start from hazard
ratio 1.0 and multiply in the hazard ratio of every active modeled factor,
collecting the matching descriptions; then convert each aggregate to a
probability.  The two baseline rates are the configured
`baseline_event_rates` values (default 2.5), passed as parameters. -/
noncomputable def calculate_tradeoff_scores_interactive
    (baselineBleedingRate baselineThromboticRate : ℚ)
    (model_predictors : PredictorModel) (active_factors : String → Bool) :
    TradeoffResult :=
  let bleedingAgg := tradeoffAgg model_predictors.bleedingPredictors active_factors
  let thromboticAgg := tradeoffAgg model_predictors.thromboticPredictors active_factors
  { bleeding_score :=
      convert_hr_to_probability bleedingAgg.1 baselineBleedingRate
    thrombotic_score :=
      convert_hr_to_probability thromboticAgg.1 baselineThromboticRate
    bleeding_factors := bleedingAgg.2
    thrombotic_factors := thromboticAgg.2 }

/-! ## services/fhir_client.py / fhir_data_service.py : text fallback -/

/-- An observation as seen by the text-search fallback: its effective
dates and an opaque identifier standing for the rest of the resource. -/
structure ObsResource where
  rid : String
  effectiveDateTime : Option String := none
  effectivePeriodStart : Option String := none
deriving Repr, DecidableEq

instance : Inhabited ObsResource := ⟨⟨"", none, none⟩⟩

/-- Python `a or b` over an optional string: the string when present and
non-empty (truthy), else the fallback. -/
def orElseStr (a : Option String) (b : String) : String :=
  match a with
  | some s => if s = "" then b else s
  | none => b

/-- The sort key of fetch_observations_by_text (fhir_client.py line 264):
`effectiveDateTime or effectivePeriod.start or '1900-01-01'`. -/
def dateKey (r : ObsResource) : String :=
  orElseStr r.effectiveDateTime (orElseStr r.effectivePeriodStart "1900-01-01")

/-- Stable descending insertion by date key: the new element goes after
every already-placed element whose key is greater than or equal to its
own, matching Python's stable `sort(key=..., reverse=True)`. -/
def insertDesc (x : ObsResource) : List ObsResource → List ObsResource
  | [] => [x]
  | y :: ys =>
    if dateKey y < dateKey x then x :: y :: ys else y :: insertDesc x ys

/-- Stable descending sort by date key (fhir_client.py line 268). -/
def sortByDateDesc (l : List ObsResource) : List ObsResource :=
  l.foldl (fun acc x => insertDesc x acc) []

/-- Embedding of `fetch_observations_by_text` (fhir_client.py lines
228-276).  `server` maps a search term to the bundle entries the FHIR
query returns, `none` standing for a raised exception (the except branch
continues with the next term); entries with an absent resource are
skipped.  For the first term with a usable candidate, the candidates are
sorted by date descending, the first is returned, and the loop breaks. -/
def fetch_observations_by_text
    (server : String → Option (List (Option ObsResource))) :
    List String → List ObsResource
  | [] => []
  | term :: rest =>
    match server term with
    | none => fetch_observations_by_text server rest
    | some entries =>
      match sortByDateDesc (entries.filterMap id) with
      | [] => fetch_observations_by_text server rest
      | r :: _ => [r]

/-- The per-parameter resolution step of `get_fhir_data`
(fhir_data_service.py lines 99-129): when the coded (LOINC) search result
is empty and fallback text terms are configured for the parameter, run the
text search; otherwise keep the coded result. -/
def resolve_lab_observations (coded : List ObsResource)
    (textTerms : Option (List String))
    (server : String → Option (List (Option ObsResource))) :
    List ObsResource :=
  if coded.isEmpty then
    match textTerms with
    | some terms => fetch_observations_by_text server terms
    | none => coded
  else coded

/-! ## Specification-side definitions (the claims' own wording) -/

/-- Specification-side unit-normalizer of claim C3 / spec section 4.1,
written from the claim's words: unusable (`none`) when the quantity or its
numeric value is absent; the value unchanged when the source-unit string is
empty/blank or case-insensitively equals the canonical unit; value × factor
when the lower-cased source unit is a key of the factor table; `none` in
every other case. -/
def unitNormalizerSpec (obs : Observation) (us : UnitSystem) : Option ℚ :=
  match obs.valueQuantity with
  | none => none
  | some vq =>
    match vq.value with
    | none => none
    | some v =>
      if isBlank (vq.unit.getD "") then some v
      else if pyLower (vq.unit.getD "") = pyLower us.unit then some v
      else
        match us.factors.lookup (pyLower (vq.unit.getD "")) with
        | some factor => some (v * factor)
        | none => none

/-- Specification-side aggregate hazard ratio of claim C2: the product of
the hazard ratios of exactly the active modeled factors. -/
def hrProduct (predictors : List Predictor) (active : String → Bool) : ℚ :=
  ((predictors.filter (fun p => active p.factor)).map Predictor.hazard).prod

/-- Cirrhosis evidence of one condition record (claim C9): a SNOMED coding
equal to the configured cirrhosis code, or a configured cirrhosis keyword
occurring in the lowered condition text. -/
def cirrhosisEvidence (cfg : Config) (c : Condition) : Bool :=
  c.codings.any (fun cd =>
    cd.system.getD "" == snomedSys && cd.code.getD "" == cfg.cirrhosisParentCode) ||
  cfg.cirrhosisKeywords.any (fun kw =>
    strContains (pyLower (get_condition_text c)) kw)

/-- Portal-hypertension evidence of one condition record (claim C9): a
SNOMED coding in the configured portal-hypertension code set, or a
configured portal-hypertension criterion occurring in the lowered
condition text. -/
def portalHypertensionEvidence (cfg : Config) (c : Condition) : Bool :=
  c.codings.any (fun cd =>
    cd.system.getD "" == snomedSys && cfg.phtSnomedCodes.contains (cd.code.getD "")) ||
  cfg.phtCriteria.any (fun cr =>
    strContains (pyLower (get_condition_text c)) cr)

/-- The usable candidates a text-search term yields (claim C8): the
returned entries that carry a resource, `none` (a raised exception)
yielding no candidates. -/
def candidatesOf (server : String → Option (List (Option ObsResource)))
    (term : String) : List ObsResource :=
  ((server term).getD []).filterMap id

/-! ## Concrete fixtures used by witnesses and counterexamples -/

/-- A CKD-EPI oracle that never produces a value (no creatinine path). -/
def noEgfrCalc : ℚ → ℤ → String → Option ℤ := fun _ _ _ => none

/-- A lab observation with the given value and unit string. -/
def mkObs (v : ℚ) (u : String) : Observation :=
  { valueQuantity := some { value := some v, unit := some u }
    effectiveDateTime := none }

/-- A medication request whose rendered concept text names warfarin. -/
def warfarinMed : Med := { medText := "warfarin sodium 5 MG Oral Tablet" }

/-- The failed-load configuration with warfarin configured as a generic
anticoagulant name (what a healthy configuration provides). -/
def warfarinConfig : Config := { emptyConfig with oacGenericNames := ["warfarin"] }

/-- A bundle holding only a warfarin medication request. -/
def warfarinBundle : RawData := { med_requests := [warfarinMed] }

/-- Demographics of a 95-year-old patient. -/
def demoAge95 : Demographics := { age := some 95 }

/-- A bundle whose hemoglobin, WBC and platelet observations all carry the
numeric value 0 in canonical units. -/
def zeroValueBundle : RawData :=
  { hemoglobin := [mkObs 0 "g/dl"]
    wbc := [mkObs 0 "10*9/l"]
    platelets := [mkObs 0 "10*9/l"] }

/-- An observation with an unconvertible unit string. -/
def bananaObs : Observation := mkObs 7 "banana"

/-- A one-predictor model (the smoker bleeding factor of the ARC-HBR
model file). -/
def smokerModel : PredictorModel :=
  { bleedingPredictors := [{ factor := "smoker", hazard := 1.47,
                             description := "Current smoker" }]
    thromboticPredictors := [] }

/-- An activation map with no active factors. -/
def noActiveFactors : String → Bool := fun _ => false

/-- A server fixture for the text-search fallback: term "a" raises, term
"b" returns an entry without a resource, term "c" returns two dated
resources (plus a resource-less entry), term "d" returns a later-dated
resource that must never be reached. -/
def fixtureServer : String → Option (List (Option ObsResource)) :=
  fun t =>
    if t = "a" then none
    else if t = "b" then some [none]
    else if t = "c" then
      some [some { rid := "r1", effectiveDateTime := some "2020-01-01" }, none,
            some { rid := "r2", effectiveDateTime := some "2021-05-05" }]
    else some [some { rid := "zz", effectiveDateTime := some "2099-01-01" }]

/-! ## Theorems -/

/-- Closed form of the category label (helper). -/
theorem category_closed_form (s : ℤ) :
    (get_risk_category_info s).category =
      if s ≤ 22 then "Not high bleeding risk"
      else if s ≤ 26 then "HBR" else "Very HBR" := by
  unfold get_risk_category_info
  split_ifs <;> rfl

/-- C4: for every integer final score, `get_risk_category_info` returns
exactly one of three categories with no gaps or overlaps — score ≤ 22 is
"Not high bleeding risk", 23 ≤ score ≤ 26 is "HBR", score ≥ 27 is
"Very HBR"; in particular 22, 23 and 27 map to the three categories. -/
theorem risk_category_trichotomy (s : ℤ) :
    ((get_risk_category_info s).category = "Not high bleeding risk" ↔ s ≤ 22) ∧
    ((get_risk_category_info s).category = "HBR" ↔ 23 ≤ s ∧ s ≤ 26) ∧
    ((get_risk_category_info s).category = "Very HBR" ↔ 27 ≤ s) ∧
    (get_risk_category_info 22).category = "Not high bleeding risk" ∧
    (get_risk_category_info 23).category = "HBR" ∧
    (get_risk_category_info 27).category = "Very HBR" := by
  refine ⟨?_, ?_, ?_,
    by rw [category_closed_form]; norm_num,
    by rw [category_closed_form]; norm_num,
    by rw [category_closed_form]; norm_num⟩ <;>
  rw [category_closed_form] <;> split_ifs with h1 h2 <;>
    first
      | exact iff_of_true rfl (by omega)
      | exact iff_of_false (by decide) (by omega)


/-- Evaluation of `pyRound` below the half boundary (helper). -/
theorem pyRound_of_lt_half (q : ℚ) (n : ℤ) (hf : ⌊q⌋ = n) (h : q - n < 1/2) :
    pyRound q = n := by
  unfold pyRound
  rw [hf, if_pos h]

/-- Evaluation of `pyRound` above the half boundary (helper). -/
theorem pyRound_of_gt_half (q : ℚ) (n : ℤ) (hf : ⌊q⌋ = n) (h : 1/2 < q - n) :
    pyRound q = n + 1 := by
  unfold pyRound
  rw [hf, if_neg (by linarith), if_pos h]

/-- Evaluation of `pyRound` at the half boundary, even floor (helper). -/
theorem pyRound_half_even (q : ℚ) (n : ℤ) (hf : ⌊q⌋ = n) (h : q - n = 1/2)
    (he : 2 ∣ n) : pyRound q = n := by
  unfold pyRound
  rw [hf, if_neg (by rw [h]; exact lt_irrefl _),
    if_neg (by rw [h]; exact lt_irrefl _), if_pos he]

/-- Evaluation of `pyRound` at the half boundary, odd floor (helper). -/
theorem pyRound_half_odd (q : ℚ) (n : ℤ) (hf : ⌊q⌋ = n) (h : q - n = 1/2)
    (ho : ¬ 2 ∣ n) : pyRound q = n + 1 := by
  unfold pyRound
  rw [hf, if_neg (by rw [h]; exact lt_irrefl _),
    if_neg (by rw [h]; exact lt_irrefl _), if_neg ho]

/-- Python round of 12.5 is 12 (helper). -/
theorem pyRound_12_5 : pyRound 12.5 = 12 :=
  pyRound_half_even 12.5 12 (by norm_num) (by norm_num) (by decide)

/-- Python round of 25/2 is 12 (fraction form, helper). -/
theorem pyRound_25_over_2 : pyRound (25/2) = 12 :=
  pyRound_half_even (25/2) 12 (by norm_num) (by norm_num) (by decide)

/-- Python round of 2 is 2 (helper). -/
theorem pyRound_two : pyRound 2 = 2 :=
  pyRound_of_lt_half 2 2 (by norm_num) (by norm_num)

/-- Evaluation of the age block at age 95 (helper). -/
theorem ageSection_95 : ageSection (some 95) =
    ({ parameter := "PRECISE-HBR - Age", score := 12, raw_value := some 95,
       is_present := none }, 12.5) := by
  have h80 : (max (30 : ℤ) (min 80 95)) = 80 := by decide
  simp only [ageSection, h80]
  norm_num [pyRound_25_over_2]

/-- The second projection of the scorer is the rounded accumulated total
of the unrounded block contributions, in source order (helper; holds by
definition). -/
theorem calc_final_eq (egfrCalc : ℚ → ℤ → String → Option ℤ) (cfg : Config)
    (raw : RawData) (demo : Demographics) :
    (calculate_precise_hbr_score egfrCalc cfg raw demo).2 =
      pyRound (2 + (ageSection demo.age).2 + (hbSection raw.hemoglobin).2 +
        (egfrSection (egfrValue egfrCalc raw demo)).2 + (wbcSection raw.wbc).2 +
        (bleedingSection cfg raw.conditions).2 +
        (anticoagSection cfg raw.med_requests).2 +
        ((if (check_arc_hbr_factors_detailed cfg raw raw.med_requests).has_any_factor
          then 3 else 0 : ℤ) : ℚ)) := rfl

/-- The component list of the scorer, positionally (helper; holds by
definition). -/
theorem calc_components_eq (egfrCalc : ℚ → ℤ → String → Option ℤ)
    (cfg : Config) (raw : RawData) (demo : Demographics) :
    (calculate_precise_hbr_score egfrCalc cfg raw demo).1 =
      baseComponent :: (ageSection demo.age).1 :: (hbSection raw.hemoglobin).1 ::
        (egfrSection (egfrValue egfrCalc raw demo)).1 :: (wbcSection raw.wbc).1 ::
        (bleedingSection cfg raw.conditions).1 ::
        (anticoagSection cfg raw.med_requests).1 ::
        arcComponents (check_arc_hbr_factors_detailed cfg raw raw.med_requests)
          (if (check_arc_hbr_factors_detailed cfg raw raw.med_requests).has_any_factor
           then 3 else 0) := rfl

/-- C7 counterexample: for a patient of age 95 (empty bundle otherwise),
the displayed age contribution produced by `calculate_precise_hbr_score`
is 12 — Python's round-half-to-even of (80 − 30) × 0.25 = 12.5 — and not
13 as the claim states. -/
theorem age95_displayed_score_not_13 :
    ((calculate_precise_hbr_score noEgfrCalc emptyConfig {} demoAge95).1.get? 1).map
        Component.score = some 12 ∧
    ((calculate_precise_hbr_score noEgfrCalc emptyConfig {} demoAge95).1.get? 1).map
        Component.score ≠ some 13 := by
  have hl : (calculate_precise_hbr_score noEgfrCalc emptyConfig {} demoAge95).1.get? 1 =
      some (ageSection (some 95)).1 := rfl
  refine ⟨?_, ?_⟩ <;> rw [hl, ageSection_95]
  · rfl
  · decide

/-- C7 amended: for every patient whose age is 95, the effective age is
clamped to 80, the unrounded age contribution is (80 − 30) × 0.25 = 12.5,
and the displayed age contribution is round-half-to-even(12.5) = 12. -/
theorem age95_clamped_and_rounded (egfrCalc : ℚ → ℤ → String → Option ℤ)
    (cfg : Config) (raw : RawData) (demo : Demographics)
    (h : demo.age = some 95) :
    max 30 (min 80 (95 : ℤ)) = 80 ∧
    (ageSection demo.age).2 = 12.5 ∧
    (ageSection demo.age).1.score = pyRound 12.5 ∧
    ((calculate_precise_hbr_score egfrCalc cfg raw demo).1.get? 1).map
        Component.score = some 12 := by
  have hl : (calculate_precise_hbr_score egfrCalc cfg raw demo).1.get? 1 =
      some (ageSection demo.age).1 := rfl
  rw [hl, h, ageSection_95]
  exact ⟨by decide, rfl, by rw [pyRound_12_5], rfl⟩

/-- C7 amended, witness at age 95 with an otherwise empty bundle. -/
theorem age95_clamped_and_rounded_witness :
    demoAge95.age = some 95 ∧
    ((calculate_precise_hbr_score noEgfrCalc emptyConfig {} demoAge95).1.get? 1).map
        Component.score = some 12 :=
  ⟨rfl, (age95_clamped_and_rounded noEgfrCalc emptyConfig {} demoAge95 rfl).2.2.2⟩

/-- C6 counterexample: after a failed configuration load (the checkers see
`emptyConfig`), scoring proceeds silently with empty rule sets instead of
surfacing a fatal error — a warfarin medication is not recognised (while
the same medication is recognised under a configuration that lists
warfarin), and the scorer still returns a normal final score of 2. -/
theorem config_failure_silent_scoring :
    check_oral_anticoagulation emptyConfig [warfarinMed] = false ∧
    check_oral_anticoagulation warfarinConfig [warfarinMed] = true ∧
    (calculate_precise_hbr_score noEgfrCalc emptyConfig warfarinBundle {}).2 = 2 := by
  refine ⟨by decide, by decide, ?_⟩
  rw [calc_final_eq]
  have h1 : (ageSection (({} : Demographics)).age).2 = 0 := rfl
  have h2 : (hbSection warfarinBundle.hemoglobin).2 = 0 := rfl
  have h3 : (egfrSection (egfrValue noEgfrCalc warfarinBundle {})).2 = 0 := rfl
  have h4 : (wbcSection warfarinBundle.wbc).2 = 0 := rfl
  have h5 : (bleedingSection emptyConfig warfarinBundle.conditions).2 = 0 := by
    simp [bleedingSection, check_prior_bleeding_updated, warfarinBundle]
  have h6 : (anticoagSection emptyConfig warfarinBundle.med_requests).2 = 0 := by
    simp [anticoagSection, check_oral_anticoagulation, emptyConfig, warfarinBundle]
  have h7 : (check_arc_hbr_factors_detailed emptyConfig warfarinBundle
      warfarinBundle.med_requests).has_any_factor = false := by
    simp [check_arc_hbr_factors_detailed, thrombocytopeniaCheck,
      check_bleeding_diathesis_updated, check_active_cancer_updated,
      check_liver_cirrhosis_portal_hypertension_updated, emptyConfig,
      warfarinBundle]
  rw [h1, h2, h3, h4, h5, h6, h7]
  norm_num [pyRound_two]

/-- C6 amended: when configuration initialization fails, `load_cdss_config`
caches an empty configuration and every subsequent scoring call proceeds
without error on the defaulted rule sets: the anticoagulant and
NSAID/corticosteroid keyword sets are empty (those checks are always
false), the scorer's anticoagulation component is always "No", and a full
13-component result is still produced. -/
theorem config_failure_degraded_rulesets (egfrCalc : ℚ → ℤ → String → Option ℤ)
    (raw : RawData) (demo : Demographics) (meds : List Med) :
    check_oral_anticoagulation emptyConfig meds = false ∧
    (check_arc_hbr_factors_detailed emptyConfig raw meds).nsaids_corticosteroids = false ∧
    ((calculate_precise_hbr_score egfrCalc emptyConfig raw demo).1.get? 6).map
        Component.is_present = some (some false) ∧
    (calculate_precise_hbr_score egfrCalc emptyConfig raw demo).1.length = 13 := by
  have hoac : ∀ ms : List Med, check_oral_anticoagulation emptyConfig ms = false := by
    intro ms
    simp [check_oral_anticoagulation, emptyConfig]
  have hnsaid : (check_arc_hbr_factors_detailed emptyConfig raw meds).nsaids_corticosteroids = false := by
    simp [check_arc_hbr_factors_detailed, emptyConfig]
  refine ⟨hoac meds, hnsaid, ?_, ?_⟩
  · have hl : (calculate_precise_hbr_score egfrCalc emptyConfig raw demo).1.get? 6 =
        some (anticoagSection emptyConfig raw.med_requests).1 := rfl
    rw [hl]
    simp [anticoagSection, hoac]
  · rw [calc_components_eq]
    simp [arcComponents]

/-- C10: a normalized lab value of exactly 0 (hemoglobin, WBC, platelets)
or a derived age of 0 is treated by the scorer exactly like absent data,
because presence is tested by Python truthiness: the component contributes
0 and is marked not available (identical to the empty-observation-list
case), and a platelet value of 0 never sets the thrombocytopenia factor. -/
theorem zero_values_treated_as_absent (egfrCalc : ℚ → ℤ → String → Option ℤ)
    (cfg : Config) (raw : RawData) (demo : Demographics)
    (obsH obsW obsP : Observation) (restH restW restP : List Observation)
    (hH : raw.hemoglobin = obsH :: restH)
    (hHv : get_value_from_observation obsH HEMOGLOBIN_UNITS = some 0)
    (hW : raw.wbc = obsW :: restW)
    (hWv : get_value_from_observation obsW WBC_UNITS = some 0)
    (hP : raw.platelets = obsP :: restP)
    (hPv : get_value_from_observation obsP PLATELETS_UNITS = some 0)
    (hA : demo.age = some 0) :
    hbSection raw.hemoglobin = (hbNotAvailableComponent, 0) ∧
    hbSection raw.hemoglobin = hbSection [] ∧
    wbcSection raw.wbc = (wbcNotAvailableComponent, 0) ∧
    wbcSection raw.wbc = wbcSection [] ∧
    (check_arc_hbr_factors_detailed cfg raw raw.med_requests).thrombocytopenia = false ∧
    ageSection demo.age = (ageUnknownComponent, 0) ∧
    ((calculate_precise_hbr_score egfrCalc cfg raw demo).1.get? 2).map
        Component.raw_value = some none := by
  have hhb : hbSection raw.hemoglobin = (hbNotAvailableComponent, 0) := by
    rw [hH]
    simp [hbSection, hHv]
  have hwbc : wbcSection raw.wbc = (wbcNotAvailableComponent, 0) := by
    rw [hW]
    simp [wbcSection, hWv]
  have hage : ageSection demo.age = (ageUnknownComponent, 0) := by
    rw [hA]
    simp [ageSection]
  have hplt : thrombocytopeniaCheck cfg raw.platelets = false := by
    rw [hP]
    simp [thrombocytopeniaCheck, hPv]
  have harc : (check_arc_hbr_factors_detailed cfg raw raw.med_requests).thrombocytopenia =
      thrombocytopeniaCheck cfg raw.platelets := rfl
  refine ⟨hhb, by rw [hhb]; rfl, hwbc, by rw [hwbc]; rfl, by rw [harc, hplt], hage, ?_⟩
  have hl : (calculate_precise_hbr_score egfrCalc cfg raw demo).1.get? 2 =
      some (hbSection raw.hemoglobin).1 := rfl
  rw [hl, hhb]
  rfl

/-- C10 witness: a bundle whose hemoglobin, WBC and platelets all read 0
in canonical units, and a derived age of 0. -/
theorem zero_values_treated_as_absent_witness :
    get_value_from_observation (mkObs 0 "g/dl") HEMOGLOBIN_UNITS = some 0 ∧
    hbSection zeroValueBundle.hemoglobin = (hbNotAvailableComponent, 0) ∧
    (check_arc_hbr_factors_detailed emptyConfig zeroValueBundle
      zeroValueBundle.med_requests).thrombocytopenia = false := by
  have h := zero_values_treated_as_absent noEgfrCalc emptyConfig zeroValueBundle
    { age := some 0 } (mkObs 0 "g/dl") (mkObs 0 "10*9/l") (mkObs 0 "10*9/l")
    [] [] [] rfl rfl rfl rfl rfl rfl rfl
  exact ⟨rfl, h.1, h.2.2.2.2.1⟩

/-- Characters produced by `Char.ofNat` in the lowercase range keep their
code point (helper). -/
theorem charOfNat_toNat (n : ℕ) (h1 : 97 ≤ n) (h2 : n ≤ 122) :
    (Char.ofNat n).toNat = n := by
  have hv : n.isValidChar := Or.inl (by omega)
  simp only [Char.ofNat, hv, dif_pos]
  simp [Char.ofNatAux, Char.toNat, UInt32.toNat, BitVec.toNat_ofNat]

/-- ASCII lowering is idempotent on characters (helper). -/
theorem char_toLower_idem (c : Char) : c.toLower.toLower = c.toLower := by
  unfold Char.toLower
  by_cases h : c.toNat ≥ 65 ∧ c.toNat ≤ 90
  · rw [if_pos h]
    have hx := charOfNat_toNat (c.toNat + 32) (by omega) (by omega)
    rw [if_neg (by rw [hx]; omega)]
  · rw [if_neg h, if_neg h]

/-- `pyLower` is idempotent (helper). -/
theorem pyLower_idem (s : String) : pyLower (pyLower s) = pyLower s := by
  have hf : Char.toLower ∘ Char.toLower = Char.toLower := funext char_toLower_idem
  simp [pyLower, List.map_map, hf]

/-- A character with code point at least 48 is not whitespace (helper). -/
theorem char_no_ws_of_ge (d : Char) (hd : 48 ≤ d.toNat) :
    d.isWhitespace = false := by
  have h1 : d ≠ ' ' := fun he => absurd (he ▸ hd) (by decide)
  have h2 : d ≠ '\t' := fun he => absurd (he ▸ hd) (by decide)
  have h3 : d ≠ '\x0d' := fun he => absurd (he ▸ hd) (by decide)
  have h4 : d ≠ '\n' := fun he => absurd (he ▸ hd) (by decide)
  simp [Char.isWhitespace, h1, h2, h3, h4]

/-- ASCII lowering preserves whitespace-ness of a character (helper). -/
theorem char_isWhitespace_toLower (c : Char) :
    c.toLower.isWhitespace = c.isWhitespace := by
  by_cases h : c.toNat ≥ 65 ∧ c.toNat ≤ 90
  · have h1 : c.toLower.toNat = c.toNat + 32 := by
      unfold Char.toLower
      rw [if_pos h]
      exact charOfNat_toNat _ (by omega) (by omega)
    rw [char_no_ws_of_ge c.toLower (by omega), char_no_ws_of_ge c (by omega)]
  · unfold Char.toLower
    rw [if_neg h]

/-- Blankness of a unit string is invariant under lowering (helper). -/
theorem isBlank_pyLower (s : String) : isBlank (pyLower s) = isBlank s := by
  have hf : Char.isWhitespace ∘ Char.toLower = Char.isWhitespace :=
    funext char_isWhitespace_toLower
  simp [isBlank, pyLower, List.all_map, hf]

/-- C3: `get_value_from_observation` implements exactly the claimed case
analysis (the specification-side `unitNormalizerSpec` written from the
claim): `none` when the quantity or numeric value is absent; the value
unchanged on a blank source unit or a case-insensitive match with the
canonical unit; value × factor when the lowered source unit is a factor-
table key; `none` in every other case — and an unusable observation is
treated by the scorer exactly like no observation present. -/
theorem get_value_matches_spec_contract (obs : Observation) (us : UnitSystem)
    (rest : List Observation) :
    get_value_from_observation obs us = unitNormalizerSpec obs us ∧
    (get_value_from_observation obs HEMOGLOBIN_UNITS = none →
      hbSection (obs :: rest) = hbSection []) := by
  constructor
  · obtain ⟨ovq, oed⟩ := obs
    cases ovq with
    | none => rfl
    | some vq =>
      obtain ⟨oval, ounit⟩ := vq
      cases oval with
      | none => rfl
      | some v =>
        simp only [get_value_from_observation, unitNormalizerSpec]
        have hidem := pyLower_idem (ounit.getD "")
        have hblank := isBlank_pyLower (ounit.getD "")
        by_cases h1 : isBlank (ounit.getD "") = true
        · rw [if_pos (Or.inr (by rw [hblank]; exact h1)), if_pos h1]
        · rw [if_neg ?hc, if_neg h1]
          case hc =>
            rintro (he | hb)
            · apply h1
              rw [← hblank, he]
              rfl
            · exact h1 (hblank ▸ hb)
          by_cases h2 : pyLower (ounit.getD "") = pyLower us.unit
          · rw [if_pos h2]
            by_cases h3 : pyLower (ounit.getD "") = us.unit
            · rw [if_pos h3]
            · rw [if_neg h3, if_pos (by rw [hidem]; exact h2)]
          · have h3 : ¬ pyLower (ounit.getD "") = us.unit := by
              intro he
              exact h2 (by rw [← hidem, he])
            rw [if_neg h3, if_neg (by rw [hidem]; exact h2), if_neg h2]
  · intro h
    simp [hbSection, h]

/-- C3 witness: an observation with an unconvertible unit ("banana") is
unusable, equals the spec verdict, and scores identically to an absent
hemoglobin observation. -/
theorem get_value_matches_spec_contract_witness :
    get_value_from_observation bananaObs HEMOGLOBIN_UNITS = none ∧
    get_value_from_observation bananaObs HEMOGLOBIN_UNITS =
      unitNormalizerSpec bananaObs HEMOGLOBIN_UNITS ∧
    hbSection [bananaObs] = hbSection [] := by
  have h := get_value_matches_spec_contract bananaObs HEMOGLOBIN_UNITS []
  exact ⟨by decide, h.1, h.2 (by decide)⟩

/-- Python round of 0 is 0 (helper). -/
theorem pyRound_zero : pyRound 0 = 0 :=
  pyRound_of_lt_half 0 0 (by norm_num) (by norm_num)

/-- The displayed age score is the rounded age contribution (helper). -/
theorem ageSection_score_rounded (o : Option ℤ) :
    (ageSection o).1.score = pyRound (ageSection o).2 := by
  cases o with
  | none => simp [ageSection, ageUnknownComponent, pyRound_zero]
  | some a =>
    simp only [ageSection]
    split_ifs <;> simp [ageUnknownComponent, pyRound_zero]

/-- The displayed hemoglobin score is the rounded contribution (helper). -/
theorem hbSection_score_rounded (l : List Observation) :
    (hbSection l).1.score = pyRound (hbSection l).2 := by
  cases l with
  | nil => simp [hbSection, hbNotAvailableComponent, pyRound_zero]
  | cons obs rest =>
    simp only [hbSection]
    cases hv : get_value_from_observation obs HEMOGLOBIN_UNITS with
    | none => simp [hbNotAvailableComponent, pyRound_zero]
    | some v =>
      dsimp only
      split_ifs <;> simp [hbNotAvailableComponent, pyRound_zero]

/-- The displayed eGFR score is the rounded contribution (helper). -/
theorem egfrSection_score_rounded (o : Option ℚ) :
    (egfrSection o).1.score = pyRound (egfrSection o).2 := by
  cases o with
  | none => simp [egfrSection, egfrNotAvailableComponent, pyRound_zero]
  | some v =>
    simp only [egfrSection]
    split_ifs <;> simp [egfrNotAvailableComponent, pyRound_zero]

/-- The displayed WBC score is the rounded contribution (helper). -/
theorem wbcSection_score_rounded (l : List Observation) :
    (wbcSection l).1.score = pyRound (wbcSection l).2 := by
  cases l with
  | nil => simp [wbcSection, wbcNotAvailableComponent, pyRound_zero]
  | cons obs rest =>
    simp only [wbcSection]
    cases hv : get_value_from_observation obs WBC_UNITS with
    | none => simp [wbcNotAvailableComponent, pyRound_zero]
    | some v =>
      dsimp only
      split_ifs <;> simp [wbcNotAvailableComponent, pyRound_zero]

/-- C1: the final score returned by `calculate_precise_hbr_score` equals
`round(base 2 + sum of the unrounded raw contributions)` of age,
hemoglobin, eGFR, WBC and the three categorical deltas; the per-component
"score" fields are the individually rounded contributions, for display
only, and are never the quantities summed into the final score. -/
theorem final_score_rounds_unrounded_sum
    (egfrCalc : ℚ → ℤ → String → Option ℤ) (cfg : Config) (raw : RawData)
    (demo : Demographics) :
    (calculate_precise_hbr_score egfrCalc cfg raw demo).2 =
      pyRound (2 + (ageSection demo.age).2 + (hbSection raw.hemoglobin).2 +
        (egfrSection (egfrValue egfrCalc raw demo)).2 + (wbcSection raw.wbc).2 +
        ((if (check_prior_bleeding_updated cfg raw.conditions).1 then (7 : ℚ)
          else 0) +
         (if check_oral_anticoagulation cfg raw.med_requests then (5 : ℚ)
          else 0) +
         (if (check_arc_hbr_factors_detailed cfg raw
                raw.med_requests).has_any_factor then (3 : ℚ) else 0))) ∧
    (ageSection demo.age).1.score = pyRound (ageSection demo.age).2 ∧
    (hbSection raw.hemoglobin).1.score = pyRound (hbSection raw.hemoglobin).2 ∧
    (egfrSection (egfrValue egfrCalc raw demo)).1.score =
      pyRound (egfrSection (egfrValue egfrCalc raw demo)).2 ∧
    (wbcSection raw.wbc).1.score = pyRound (wbcSection raw.wbc).2 := by
  refine ⟨?_, ageSection_score_rounded _, hbSection_score_rounded _,
    egfrSection_score_rounded _, wbcSection_score_rounded _⟩
  rw [calc_final_eq]
  have e1 : (bleedingSection cfg raw.conditions).2 =
      (if (check_prior_bleeding_updated cfg raw.conditions).1 then (7 : ℚ)
       else 0) := by
    simp only [bleedingSection]
    split_ifs <;> norm_num
  have e2 : (anticoagSection cfg raw.med_requests).2 =
      (if check_oral_anticoagulation cfg raw.med_requests then (5 : ℚ)
       else 0) := by
    simp only [anticoagSection]
    split_ifs <;> norm_num
  have e3 : ((if (check_arc_hbr_factors_detailed cfg raw
        raw.med_requests).has_any_factor then 3 else 0 : ℤ) : ℚ) =
      (if (check_arc_hbr_factors_detailed cfg raw
        raw.med_requests).has_any_factor then (3 : ℚ) else 0) := by
    split_ifs <;> norm_num
  rw [e1, e2, e3]
  congr 1
  ring

/-- Calibration cap on the first segment and below (helper). -/
theorem cbrp_cap_22 (s : ℤ) (h : s ≤ 22) :
    calculate_bleeding_risk_percentage s ≤ 3.5 := by
  unfold calculate_bleeding_risk_percentage
  rw [if_pos h]
  exact min_le_left _ _

/-- Calibration cap up to score 26 (helper). -/
theorem cbrp_cap_26 (s : ℤ) (h : s ≤ 26) :
    calculate_bleeding_risk_percentage s ≤ 5.5 := by
  unfold calculate_bleeding_risk_percentage
  split_ifs with h1
  · exact le_trans (min_le_left _ _) (by norm_num)
  · exact min_le_left _ _

/-- Calibration cap up to score 30 (helper). -/
theorem cbrp_cap_30 (s : ℤ) (h : s ≤ 30) :
    calculate_bleeding_risk_percentage s ≤ 8 := by
  unfold calculate_bleeding_risk_percentage
  split_ifs with h1 h2
  · exact le_trans (min_le_left _ _) (by norm_num)
  · exact le_trans (min_le_left _ _) (by norm_num)
  · exact min_le_left _ _

/-- Calibration cap up to score 35 (helper). -/
theorem cbrp_cap_35 (s : ℤ) (h : s ≤ 35) :
    calculate_bleeding_risk_percentage s ≤ 12 := by
  unfold calculate_bleeding_risk_percentage
  split_ifs with h1 h2 h3
  · exact le_trans (min_le_left _ _) (by norm_num)
  · exact le_trans (min_le_left _ _) (by norm_num)
  · exact le_trans (min_le_left _ _) (by norm_num)
  · exact min_le_left _ _

/-- Calibration lower bound from score 23 on (helper). -/
theorem cbrp_lb_23 (s : ℤ) (h : 23 ≤ s) :
    (3.5 : ℚ) ≤ calculate_bleeding_risk_percentage s := by
  have hs : (23 : ℚ) ≤ (s : ℚ) := by exact_mod_cast h
  unfold calculate_bleeding_risk_percentage
  split_ifs with h1 h2 h3 h4
  · omega
  · exact le_min (by norm_num) (by linarith)
  · have hx : (27 : ℚ) ≤ (s : ℚ) := by exact_mod_cast (show (27:ℤ) ≤ s by omega)
    exact le_min (by norm_num) (by linarith)
  · have hx : (31 : ℚ) ≤ (s : ℚ) := by exact_mod_cast (show (31:ℤ) ≤ s by omega)
    exact le_min (by norm_num) (by linarith)
  · have hx : (36 : ℚ) ≤ (s : ℚ) := by exact_mod_cast (show (36:ℤ) ≤ s by omega)
    exact le_min (by norm_num) (by linarith)

/-- Calibration lower bound from score 27 on (helper). -/
theorem cbrp_lb_27 (s : ℤ) (h : 27 ≤ s) :
    (5.5 : ℚ) ≤ calculate_bleeding_risk_percentage s := by
  have hs : (27 : ℚ) ≤ (s : ℚ) := by exact_mod_cast h
  unfold calculate_bleeding_risk_percentage
  split_ifs with h1 h2 h3 h4
  · omega
  · omega
  · exact le_min (by norm_num) (by linarith)
  · have hx : (31 : ℚ) ≤ (s : ℚ) := by exact_mod_cast (show (31:ℤ) ≤ s by omega)
    exact le_min (by norm_num) (by linarith)
  · have hx : (36 : ℚ) ≤ (s : ℚ) := by exact_mod_cast (show (36:ℤ) ≤ s by omega)
    exact le_min (by norm_num) (by linarith)

/-- Calibration lower bound from score 31 on (helper). -/
theorem cbrp_lb_31 (s : ℤ) (h : 31 ≤ s) :
    (8 : ℚ) ≤ calculate_bleeding_risk_percentage s := by
  have hs : (31 : ℚ) ≤ (s : ℚ) := by exact_mod_cast h
  unfold calculate_bleeding_risk_percentage
  split_ifs with h1 h2 h3 h4
  · omega
  · omega
  · omega
  · exact le_min (by norm_num) (by linarith)
  · have hx : (36 : ℚ) ≤ (s : ℚ) := by exact_mod_cast (show (36:ℤ) ≤ s by omega)
    exact le_min (by norm_num) (by linarith)

/-- Calibration lower bound from score 36 on (helper). -/
theorem cbrp_lb_36 (s : ℤ) (h : 36 ≤ s) :
    (12 : ℚ) ≤ calculate_bleeding_risk_percentage s := by
  have hs : (36 : ℚ) ≤ (s : ℚ) := by exact_mod_cast h
  unfold calculate_bleeding_risk_percentage
  split_ifs with h1 h2 h3 h4
  · omega
  · omega
  · omega
  · omega
  · exact le_min (by norm_num) (by linarith)

/-- C5: the bleeding-risk calibration curve is monotone non-decreasing
over the reachable scores (≥ 2), and never returns more than 15. -/
theorem bleeding_risk_monotone_and_capped :
    (∀ s1 s2 : ℤ, 2 ≤ s1 → s1 ≤ s2 →
      calculate_bleeding_risk_percentage s1 ≤
        calculate_bleeding_risk_percentage s2) ∧
    (∀ s : ℤ, calculate_bleeding_risk_percentage s ≤ 15) := by
  constructor
  · intro s1 s2 hs2 h12
    have hc : (s1 : ℚ) ≤ (s2 : ℚ) := by exact_mod_cast h12
    by_cases a1 : s1 ≤ 22
    · by_cases a2 : s2 ≤ 22
      · unfold calculate_bleeding_risk_percentage
        rw [if_pos a1, if_pos a2]
        exact min_le_min le_rfl (by linarith)
      · exact le_trans (cbrp_cap_22 s1 a1) (cbrp_lb_23 s2 (by omega))
    · by_cases b1 : s1 ≤ 26
      · by_cases b2 : s2 ≤ 26
        · unfold calculate_bleeding_risk_percentage
          rw [if_neg a1, if_pos b1, if_neg (by omega), if_pos b2]
          exact min_le_min le_rfl (by linarith)
        · exact le_trans (cbrp_cap_26 s1 b1) (cbrp_lb_27 s2 (by omega))
      · by_cases c1 : s1 ≤ 30
        · by_cases c2 : s2 ≤ 30
          · unfold calculate_bleeding_risk_percentage
            rw [if_neg a1, if_neg b1, if_pos c1, if_neg (by omega),
              if_neg (by omega), if_pos c2]
            exact min_le_min le_rfl (by linarith)
          · exact le_trans (cbrp_cap_30 s1 c1) (cbrp_lb_31 s2 (by omega))
        · by_cases d1 : s1 ≤ 35
          · by_cases d2 : s2 ≤ 35
            · unfold calculate_bleeding_risk_percentage
              rw [if_neg a1, if_neg b1, if_neg c1, if_pos d1,
                if_neg (by omega), if_neg (by omega), if_neg (by omega),
                if_pos d2]
              exact min_le_min le_rfl (by linarith)
            · exact le_trans (cbrp_cap_35 s1 d1) (cbrp_lb_36 s2 (by omega))
          · unfold calculate_bleeding_risk_percentage
            rw [if_neg a1, if_neg b1, if_neg c1, if_neg d1,
              if_neg (by omega), if_neg (by omega), if_neg (by omega),
              if_neg (by omega)]
            exact min_le_min le_rfl (by linarith)
  · intro s
    unfold calculate_bleeding_risk_percentage
    split_ifs <;> exact le_trans (min_le_left _ _) (by norm_num)

/-- C5 witness: monotone from 2 to 30, and capped at 40. -/
theorem bleeding_risk_monotone_and_capped_witness :
    (2 : ℤ) ≤ 2 ∧ (2 : ℤ) ≤ 30 ∧
    calculate_bleeding_risk_percentage 2 ≤
      calculate_bleeding_risk_percentage 30 ∧
    calculate_bleeding_risk_percentage 40 ≤ 15 :=
  ⟨by norm_num, by norm_num,
    bleeding_risk_monotone_and_capped.1 2 30 (by norm_num) (by norm_num),
    bleeding_risk_monotone_and_capped.2 40⟩

/-- The coding loop of the liver checker ors the cirrhosis-code hits onto
the incoming flag (helper). -/
theorem liverCodingFold_fst (cfg : Config) (l : List Coding)
    (st : Bool × Bool × List String) :
    (l.foldl (liverCodingStep cfg) st).1 =
      (st.1 || l.any (fun cd => cd.system.getD "" == snomedSys &&
        cd.code.getD "" == cfg.cirrhosisParentCode)) := by
  induction l generalizing st with
  | nil => simp
  | cons cd rest ih =>
    simp only [List.foldl_cons, List.any_cons, ih, liverCodingStep]
    rw [Bool.or_assoc]

/-- The coding loop of the liver checker ors the portal-hypertension-code
hits onto the incoming flag (helper). -/
theorem liverCodingFold_snd (cfg : Config) (l : List Coding)
    (st : Bool × Bool × List String) :
    (l.foldl (liverCodingStep cfg) st).2.1 =
      (st.2.1 || l.any (fun cd => cd.system.getD "" == snomedSys &&
        cfg.phtSnomedCodes.contains (cd.code.getD ""))) := by
  induction l generalizing st with
  | nil => simp
  | cons cd rest ih =>
    simp only [List.foldl_cons, List.any_cons, ih, liverCodingStep]
    rw [Bool.or_assoc]

/-- One condition step of the liver checker ors this condition's cirrhosis
evidence onto the flag (helper). -/
theorem liverCondStep_fst (cfg : Config) (st : Bool × Bool × List String)
    (c : Condition) :
    (liverCondStep cfg st c).1 = (st.1 || cirrhosisEvidence cfg c) := by
  simp only [liverCondStep, cirrhosisEvidence, liverCodingFold_fst]
  rw [Bool.or_assoc]

/-- Presence of a `find?` hit coincides with `any` (helper). -/
theorem find_isSome_eq_any {α : Type} (p : α → Bool) (l : List α) :
    (l.find? p).isSome = l.any p := by
  induction l with
  | nil => rfl
  | cons a t ih =>
    simp only [List.find?, List.any_cons]
    cases h : p a with
    | true => simp [h]
    | false => simp [h, ih]

/-- One condition step of the liver checker ors this condition's
portal-hypertension evidence onto the flag (helper). -/
theorem liverCondStep_snd (cfg : Config) (st : Bool × Bool × List String)
    (c : Condition) :
    (liverCondStep cfg st c).2.1 =
      (st.2.1 || portalHypertensionEvidence cfg c) := by
  simp only [liverCondStep, portalHypertensionEvidence, liverCodingFold_snd]
  rw [Bool.or_assoc, find_isSome_eq_any]

/-- The condition loop of the liver checker ors up the per-condition
evidence (helper). -/
theorem liverFold_flags (cfg : Config) (conds : List Condition)
    (st : Bool × Bool × List String) :
    (conds.foldl (liverCondStep cfg) st).1 =
      (st.1 || conds.any (fun c => cirrhosisEvidence cfg c)) ∧
    (conds.foldl (liverCondStep cfg) st).2.1 =
      (st.2.1 || conds.any (fun c => portalHypertensionEvidence cfg c)) := by
  induction conds generalizing st with
  | nil => simp
  | cons c rest ih =>
    simp only [List.foldl_cons, List.any_cons]
    constructor
    · rw [(ih (liverCondStep cfg st c)).1, liverCondStep_fst, Bool.or_assoc]
    · rw [(ih (liverCondStep cfg st c)).2, liverCondStep_snd, Bool.or_assoc]

/-- C9: the liver-cirrhosis-with-portal-hypertension check is true exactly
when the condition sequence contains cirrhosis evidence (code or keyword)
somewhere AND, separately, portal-hypertension evidence (distinct code set
or criterion keyword) somewhere — not necessarily in the same record;
either kind of evidence alone yields false. -/
theorem liver_check_requires_both_evidences (cfg : Config)
    (conds : List Condition) :
    (check_liver_cirrhosis_portal_hypertension_updated cfg conds).1 = true ↔
      ((∃ c ∈ conds, cirrhosisEvidence cfg c = true) ∧
       (∃ c ∈ conds, portalHypertensionEvidence cfg c = true)) := by
  unfold check_liver_cirrhosis_portal_hypertension_updated
  rw [Bool.and_eq_true, (liverFold_flags cfg conds (false, false, [])).1,
    (liverFold_flags cfg conds (false, false, [])).2]
  simp [List.any_eq_true]

/-- The trade-off accumulation loop computes the initial value times the
product of the active predictors' hazard ratios (helper). -/
theorem tradeoffAgg_general (active : String → Bool) (l : List Predictor)
    (q : ℚ) (d : List String) :
    (l.foldl (fun (st : ℚ × List String) p =>
      if active p.factor then (st.1 * p.hazard, st.2 ++ [p.description])
      else st) (q, d)).1 = q * hrProduct l active := by
  induction l generalizing q d with
  | nil => simp [hrProduct]
  | cons p rest ih =>
    simp only [List.foldl_cons]
    by_cases h : active p.factor
    · rw [if_pos h, ih]
      simp [hrProduct, List.filter_cons, h, mul_assoc]
    · rw [if_neg h, ih]
      simp [hrProduct, List.filter_cons, h]

/-- The aggregate hazard ratio is exactly the product over the active
modeled factors (helper). -/
theorem tradeoffAgg_eq_product (predictors : List Predictor)
    (active : String → Bool) :
    (tradeoffAgg predictors active).1 = hrProduct predictors active := by
  unfold tradeoffAgg
  rw [tradeoffAgg_general]
  rw [one_mul]

/-- Rounding an integer-valued real is the identity (helper). -/
theorem pyRoundR_intCast (k : ℤ) : pyRoundR (k : ℝ) = k := by
  unfold pyRoundR
  rw [Int.floor_intCast]
  rw [if_pos (by simp)]

/-- C2: the trade-off engine aggregates hazard ratios multiplicatively —
each event type's aggregate HR is the product, from 1.0, of the hazard
ratios of exactly the active modeled factors — and converts each to
min(100, (1 − e^(−(−ln(1 − baseline/100)) × HR)) × 100) rounded to two
decimals; with zero active factors the aggregate HR is 1.0 and the
probability equals the baseline rate. -/
theorem tradeoff_multiplicative_cox (m : PredictorModel)
    (active : String → Bool) (bB bT : ℚ) (hB : bB < 100) (hT : bT < 100) :
    (tradeoffAgg m.bleedingPredictors active).1 =
      hrProduct m.bleedingPredictors active ∧
    (tradeoffAgg m.thromboticPredictors active).1 =
      hrProduct m.thromboticPredictors active ∧
    (calculate_tradeoff_scores_interactive bB bT m active).bleeding_score =
      pyRound2R (min 100 ((1 - Real.exp (-(-Real.log (1 - (bB : ℝ) / 100) *
        ((hrProduct m.bleedingPredictors active : ℚ) : ℝ)))) * 100)) ∧
    (calculate_tradeoff_scores_interactive bB bT m active).thrombotic_score =
      pyRound2R (min 100 ((1 - Real.exp (-(-Real.log (1 - (bT : ℝ) / 100) *
        ((hrProduct m.thromboticPredictors active : ℚ) : ℝ)))) * 100)) ∧
    ((∀ p ∈ m.bleedingPredictors, active p.factor = false) →
      (∃ k : ℤ, bB * 100 = (k : ℚ)) →
        (tradeoffAgg m.bleedingPredictors active).1 = 1 ∧
        (calculate_tradeoff_scores_interactive bB bT m active).bleeding_score =
          ((bB : ℚ) : ℝ)) := by
  have hconv : ∀ (hr b : ℚ), b < 100 →
      convert_hr_to_probability hr b =
        pyRound2R (min 100 ((1 - Real.exp (-(-Real.log (1 - (b : ℝ) / 100) *
          ((hr : ℚ) : ℝ)))) * 100)) := by
    intro hr b hb
    have hbr : (b : ℝ) < 100 := by exact_mod_cast hb
    unfold convert_hr_to_probability
    rw [if_neg (by
      rw [not_le]
      exact (div_lt_one (show (0:ℝ) < 100 by norm_num)).mpr hbr)]
    rw [min_comm]
  have hb1 : (calculate_tradeoff_scores_interactive bB bT m active).bleeding_score =
      convert_hr_to_probability (tradeoffAgg m.bleedingPredictors active).1 bB := rfl
  have ht1 : (calculate_tradeoff_scores_interactive bB bT m active).thrombotic_score =
      convert_hr_to_probability (tradeoffAgg m.thromboticPredictors active).1 bT := rfl
  refine ⟨tradeoffAgg_eq_product _ _, tradeoffAgg_eq_product _ _, ?_, ?_, ?_⟩
  · rw [hb1, hconv _ _ hB, tradeoffAgg_eq_product]
  · rw [ht1, hconv _ _ hT, tradeoffAgg_eq_product]
  · intro hall hdec
    obtain ⟨k, hk⟩ := hdec
    have hprod : hrProduct m.bleedingPredictors active = 1 := by
      unfold hrProduct
      rw [List.filter_eq_nil_iff.mpr (by intro p hp; simp [hall p hp])]
      rfl
    have hagg : (tradeoffAgg m.bleedingPredictors active).1 = 1 := by
      rw [tradeoffAgg_eq_product, hprod]
    refine ⟨hagg, ?_⟩
    rw [hb1, hagg, hconv 1 bB hB]
    have hbr : (bB : ℝ) < 100 := by exact_mod_cast hB
    have h1d : (0 : ℝ) < 1 - (bB : ℝ) / 100 := by
      have : (bB : ℝ) / 100 < 1 :=
        (div_lt_one (show (0:ℝ) < 100 by norm_num)).mpr hbr
      linarith
    rw [Rat.cast_one, mul_one, neg_neg, Real.exp_log h1d]
    rw [show (1 - (1 - (bB : ℝ) / 100)) * 100 = (bB : ℝ) by ring]
    rw [min_eq_right (le_of_lt hbr)]
    unfold pyRound2R
    have hcast : (bB : ℝ) * 100 = ((k : ℤ) : ℝ) := by
      have := congrArg (fun q : ℚ => ((q : ℚ) : ℝ)) hk
      push_cast at this
      linarith
    rw [hcast, pyRoundR_intCast]
    have : ((k : ℤ) : ℝ) = (bB : ℝ) * 100 := hcast.symm
    rw [this]
    ring

/-- C2 witness: the one-predictor smoker model with no active factors and
baseline rates 2.5 yields a bleeding probability equal to the baseline. -/
theorem tradeoff_multiplicative_cox_witness :
    (2.5 : ℚ) < 100 ∧
    (calculate_tradeoff_scores_interactive 2.5 2.5 smokerModel
      noActiveFactors).bleeding_score = ((2.5 : ℚ) : ℝ) :=
  ⟨by norm_num,
    ((tradeoff_multiplicative_cox smokerModel noActiveFactors 2.5 2.5
      (by norm_num) (by norm_num)).2.2.2.2
      (by intro p hp; rfl) ⟨250, by norm_num⟩).2⟩

/-- Membership in a descending insertion (helper). -/
theorem mem_insertDesc (x a : ObsResource) (l : List ObsResource) :
    a ∈ insertDesc x l ↔ a = x ∨ a ∈ l := by
  induction l with
  | nil => simp [insertDesc]
  | cons y ys ih =>
    unfold insertDesc
    split_ifs
    · simp
    · simp [ih]
      tauto

/-- Descending insertion preserves descending sortedness (helper). -/
theorem insertDesc_sorted (x : ObsResource) (l : List ObsResource)
    (h : l.Sorted (fun a b => dateKey b ≤ dateKey a)) :
    (insertDesc x l).Sorted (fun a b => dateKey b ≤ dateKey a) := by
  induction l with
  | nil => simp [insertDesc]
  | cons y ys ih =>
    rw [List.sorted_cons] at h
    unfold insertDesc
    split_ifs with hlt
    · rw [List.sorted_cons]
      refine ⟨?_, List.sorted_cons.mpr h⟩
      intro b hb
      rcases List.mem_cons.mp hb with hb | hb
      · rw [hb]
        exact le_of_lt hlt
      · exact le_trans (h.1 b hb) (le_of_lt hlt)
    · rw [List.sorted_cons]
      refine ⟨?_, ih h.2⟩
      intro b hb
      rcases (mem_insertDesc x b ys).mp hb with hb | hb
      · rw [hb]
        exact not_lt.mp hlt
      · exact h.1 b hb

/-- The insertion-sort fold keeps the accumulator sorted (helper). -/
theorem foldl_insertDesc_sorted (l acc : List ObsResource)
    (h : acc.Sorted (fun a b => dateKey b ≤ dateKey a)) :
    (l.foldl (fun acc x => insertDesc x acc) acc).Sorted
      (fun a b => dateKey b ≤ dateKey a) := by
  induction l generalizing acc with
  | nil => exact h
  | cons x xs ih => exact ih _ (insertDesc_sorted x acc h)

/-- Membership through the insertion-sort fold (helper). -/
theorem mem_foldl_insertDesc (l acc : List ObsResource) (a : ObsResource) :
    a ∈ l.foldl (fun acc x => insertDesc x acc) acc ↔ a ∈ acc ∨ a ∈ l := by
  induction l generalizing acc with
  | nil => simp
  | cons x xs ih =>
    simp only [List.foldl_cons, ih, mem_insertDesc, List.mem_cons]
    tauto

/-- The date-descending sort is sorted (helper). -/
theorem sortByDateDesc_sorted (l : List ObsResource) :
    (sortByDateDesc l).Sorted (fun a b => dateKey b ≤ dateKey a) :=
  foldl_insertDesc_sorted l [] (by simp)

/-- Membership is preserved by the date-descending sort (helper). -/
theorem mem_sortByDateDesc (l : List ObsResource) (a : ObsResource) :
    a ∈ sortByDateDesc l ↔ a ∈ l := by
  unfold sortByDateDesc
  rw [mem_foldl_insertDesc]
  simp

/-- The date-descending sort of a list is empty only for the empty list
(helper). -/
theorem sortByDateDesc_eq_nil (l : List ObsResource) :
    sortByDateDesc l = [] ↔ l = [] := by
  constructor
  · intro h
    cases l with
    | nil => rfl
    | cons x xs =>
      exfalso
      have : x ∈ sortByDateDesc (x :: xs) :=
        (mem_sortByDateDesc _ x).mpr (by simp)
      rw [h] at this
      simp at this
  · intro h
    rw [h]
    rfl

/-- The head of the date-descending sort is a maximal-date member
(helper). -/
theorem sortByDateDesc_head_max (l : List ObsResource) (hne : l ≠ []) :
    (sortByDateDesc l).headI ∈ l ∧
    ∀ x ∈ l, dateKey x ≤ dateKey (sortByDateDesc l).headI := by
  have hsne : sortByDateDesc l ≠ [] := fun h =>
    hne ((sortByDateDesc_eq_nil l).mp h)
  obtain ⟨r, t, hrt⟩ := List.exists_cons_of_ne_nil hsne
  have hsorted := sortByDateDesc_sorted l
  rw [hrt] at hsorted
  rw [List.sorted_cons] at hsorted
  constructor
  · rw [hrt]
    exact (mem_sortByDateDesc l r).mp (by rw [hrt]; simp)
  · intro x hx
    have hx2 : x ∈ r :: t := by
      rw [← hrt]
      exact (mem_sortByDateDesc l x).mpr hx
    rw [hrt]
    simp only [List.headI]
    rcases List.mem_cons.mp hx2 with hx3 | hx3
    · rw [hx3]
    · exact hsorted.1 x hx3

/-- C8: when the coded search yields nothing, the text-search fallback
tries the configured terms in order and, for the first term that yields
any usable candidate, returns exactly the most recent candidate by
effective date and stops — the result does not depend on any later term
(`post` does not occur on the right-hand sides). -/
theorem text_fallback_first_success_wins
    (server : String → Option (List (Option ObsResource)))
    (pre post : List String) (t : String)
    (hpre : ∀ u ∈ pre, candidatesOf server u = [])
    (ht : candidatesOf server t ≠ []) :
    fetch_observations_by_text server (pre ++ t :: post) =
      [(sortByDateDesc (candidatesOf server t)).headI] ∧
    (sortByDateDesc (candidatesOf server t)).headI ∈ candidatesOf server t ∧
    (∀ x ∈ candidatesOf server t,
      dateKey x ≤ dateKey (sortByDateDesc (candidatesOf server t)).headI) ∧
    resolve_lab_observations [] (some (pre ++ t :: post)) server =
      [(sortByDateDesc (candidatesOf server t)).headI] := by
  have hmax := sortByDateDesc_head_max (candidatesOf server t) ht
  have hfetch : fetch_observations_by_text server (pre ++ t :: post) =
      [(sortByDateDesc (candidatesOf server t)).headI] := by
    induction pre with
    | nil =>
      simp only [List.nil_append]
      unfold fetch_observations_by_text
      cases hs : server t with
      | none =>
        exfalso
        apply ht
        unfold candidatesOf
        rw [hs]
        rfl
      | some entries =>
        have hcand : entries.filterMap id = candidatesOf server t := by
          unfold candidatesOf
          rw [hs]
          rfl
        dsimp only
        rw [hcand]
        cases hsort : sortByDateDesc (candidatesOf server t) with
        | nil => exact absurd ((sortByDateDesc_eq_nil _).mp hsort) ht
        | cons r rest => simp [hsort, List.headI]
    | cons u us ih =>
      have hu : candidatesOf server u = [] := hpre u (by simp)
      have hus : ∀ w ∈ us, candidatesOf server w = [] := by
        intro w hw
        exact hpre w (by simp [hw])
      simp only [List.cons_append]
      unfold fetch_observations_by_text
      cases hs : server u with
      | none => exact ih hus
      | some entries =>
        have hcand : entries.filterMap id = [] := by
          have : candidatesOf server u = entries.filterMap id := by
            unfold candidatesOf
            rw [hs]
            rfl
          rw [← this, hu]
        dsimp only
        rw [hcand]
        simp only [sortByDateDesc, List.foldl_nil]
        exact ih hus
  refine ⟨hfetch, hmax.1, hmax.2, ?_⟩
  unfold resolve_lab_observations
  simp [hfetch]

/-- C8 witness: with terms "a" (query raises), "b" (no usable resource),
"c" (two dated resources) and "d" (a later resource that must not be
reached), the fallback returns the most recent resource of term "c". -/
theorem text_fallback_first_success_wins_witness :
    candidatesOf fixtureServer "a" = [] ∧
    candidatesOf fixtureServer "c" ≠ [] ∧
    fetch_observations_by_text fixtureServer ["a", "b", "c", "d"] =
      [(sortByDateDesc (candidatesOf fixtureServer "c")).headI] := by
  have h := text_fallback_first_success_wins fixtureServer ["a", "b"] ["d"] "c"
    (by
      intro u hu
      rcases List.mem_cons.mp hu with h1 | h1
      · rw [h1]
        rfl
      · rcases List.mem_cons.mp h1 with h2 | h2
        · rw [h2]
          rfl
        · simp at h2)
    (by decide)
  exact ⟨rfl, by decide, h.1⟩
